import Mathlib

/-!
# Verification of the bittrex-rs client core (`src/lib.rs`)

Shallow embedding of the authentication / request-signing engine and the
generic response-envelope unwrapping of the `bittrex` Rust crate, together
with proofs of the specification claims.

Modelling conventions:
* Rust `Result<T>` (error-chain) becomes `Except BError T`.
* A Rust panic (`unwrap` / `expect` on `None`) is modelled by returning
  `none` in an outer `Option` layer: `none` = abrupt termination.
* `reqwest::Url` is modelled structurally (scheme, host, path, query pairs);
  `Url.asStr` is the full serialized form.
* The time collaborator (`Utc::now().timestamp()`) is passed explicitly as
  an `Int` argument.
* The cryptographic collaborator (HMAC-SHA512, crates `hmac`/`sha2`, hex
  encoding from crate `hex`) is implemented executably below, following
  FIPS 180-4 / RFC 2104.
-/

namespace Bittrex

/-! ## Error taxonomy (`error` module, error-chain kinds used in `lib.rs`) -/

/-- Error kinds reachable from the core code in `lib.rs`:
`Api` (structurally invalid success payload), `Result` (server-signalled
failure carrying the server message), and `Msg` (generic internal error,
e.g. the "invalid key length" branch of `hash_uri`). -/
inductive BError where
  | Api : String → BError
  | Result : String → BError
  | Msg : String → BError
deriving DecidableEq, Repr

/-! ## Response envelope (`ApiResult<R>` and `into_result`) -/

/-- The `{success, message, result}` envelope, from `struct ApiResult<R>`. -/
structure ApiResult (R : Type) where
  success : Bool
  message : String
  result : Option R
deriving DecidableEq, Repr

/-- `ApiResult::into_result`, transcribed from the source:
if `success` then unwrap `result` (or an `Api`-kind error when absent),
else a `Result`-kind error carrying `message`. -/
def ApiResult.into_result {R : Type} (a : ApiResult R) : Except BError R :=
  if a.success then
    match a.result with
    | some r => Except.ok r
    | none => Except.error (BError.Api "invalid result in success response")
  else
    Except.error (BError.Result a.message)

/-! ## URLs

`reqwest::Url` is modelled by its components; `append_pair` appends to the
query pair list and `asStr` is the serialized full string form
(percent-encoding is not modelled; none of the claims depend on it). -/

/-- Structural model of `reqwest::Url`. -/
structure Url where
  scheme : String
  host : String
  path : String
  query : List (String × String)
deriving DecidableEq, Repr

/-- Serialize a query pair list as `k1=v1&k2=v2&...`. -/
def queryString (q : List (String × String)) : String :=
  String.intercalate "&" (q.map (fun p => p.1 ++ "=" ++ p.2))

/-- `Url::as_str`: the full string form, scheme, host, path and query. -/
def Url.asStr (u : Url) : String :=
  u.scheme ++ "://" ++ u.host ++ u.path ++
    (if u.query.isEmpty then "" else "?" ++ queryString u.query)

/-- `UrlQuerySerializer::append_pair`: appends one `(key, value)` query pair. -/
def Url.append_pair (u : Url) (k v : String) : Url :=
  { u with query := u.query ++ [(k, v)] }

/-! ## UTF-8 encoding (the byte view `str::as_bytes` works on) -/

/-- Standard UTF-8 encoding of a single character. -/
def utf8Char (c : Char) : List Nat :=
  let n := c.toNat
  if n < 0x80 then [n]
  else if n < 0x800 then
    [0xC0 ||| (n >>> 6), 0x80 ||| (n &&& 0x3F)]
  else if n < 0x10000 then
    [0xE0 ||| (n >>> 12), 0x80 ||| ((n >>> 6) &&& 0x3F), 0x80 ||| (n &&& 0x3F)]
  else
    [0xF0 ||| (n >>> 18), 0x80 ||| ((n >>> 12) &&& 0x3F),
     0x80 ||| ((n >>> 6) &&& 0x3F), 0x80 ||| (n &&& 0x3F)]

/-- The UTF-8 bytes of a string (`str::as_bytes` in Rust). -/
def utf8Bytes (s : String) : List Nat :=
  (s.data.map utf8Char).flatten

/-! ## SHA-512 (FIPS 180-4), the `sha2` collaborator, executable -/

/-- Truncate to a 64-bit word. -/
def w64 (n : Nat) : Nat := n % 2 ^ 64

/-- 64-bit right rotation. -/
def rotr64 (x n : Nat) : Nat := ((x >>> n) ||| (x <<< (64 - n))) % 2 ^ 64

/-- 64-bit bitwise complement. -/
def not64 (x : Nat) : Nat := x ^^^ (2 ^ 64 - 1)

/-- SHA-512 big sigma 0. -/
def bsig0 (x : Nat) : Nat := rotr64 x 28 ^^^ rotr64 x 34 ^^^ rotr64 x 39

/-- SHA-512 big sigma 1. -/
def bsig1 (x : Nat) : Nat := rotr64 x 14 ^^^ rotr64 x 18 ^^^ rotr64 x 41

/-- SHA-512 small sigma 0. -/
def ssig0 (x : Nat) : Nat := rotr64 x 1 ^^^ rotr64 x 8 ^^^ (x >>> 7)

/-- SHA-512 small sigma 1. -/
def ssig1 (x : Nat) : Nat := rotr64 x 19 ^^^ rotr64 x 61 ^^^ (x >>> 6)

/-- SHA-512 choose function. -/
def ch (x y z : Nat) : Nat := (x &&& y) ^^^ (not64 x &&& z)

/-- SHA-512 majority function. -/
def maj (x y z : Nat) : Nat := (x &&& y) ^^^ (x &&& z) ^^^ (y &&& z)

/-- The 80 SHA-512 round constants (FIPS 180-4 section 4.2.3, the first 64
bits of the fractional parts of the cube roots of the first 80 primes),
written in decimal. -/
def K512 : List Nat :=
  [4794697086780616226, 8158064640168781261, 13096744586834688815, 16840607885511220156, 4131703408338449720,
   6480981068601479193, 10538285296894168987, 12329834152419229976, 15566598209576043074, 1334009975649890238,
   2608012711638119052, 6128411473006802146, 8268148722764581231, 9286055187155687089, 11230858885718282805,
   13951009754708518548, 16472876342353939154, 17275323862435702243, 1135362057144423861, 2597628984639134821,
   3308224258029322869, 5365058923640841347, 6679025012923562964, 8573033837759648693, 10970295158949994411,
   12119686244451234320, 12683024718118986047, 13788192230050041572, 14330467153632333762, 15395433587784984357,
   489312712824947311, 1452737877330783856, 2861767655752347644, 3322285676063803686, 5560940570517711597,
   5996557281743188959, 7280758554555802590, 8532644243296465576, 9350256976987008742, 10552545826968843579,
   11727347734174303076, 12113106623233404929, 14000437183269869457, 14369950271660146224, 15101387698204529176,
   15463397548674623760, 17586052441742319658, 1182934255886127544, 1847814050463011016, 2177327727835720531,
   2830643537854262169, 3796741975233480872, 4115178125766777443, 5681478168544905931, 6601373596472566643,
   7507060721942968483, 8399075790359081724, 8693463985226723168, 9568029438360202098, 10144078919501101548,
   10430055236837252648, 11840083180663258601, 13761210420658862357, 14299343276471374635, 14566680578165727644,
   15097957966210449927, 16922976911328602910, 17689382322260857208, 500013540394364858, 748580250866718886,
   1242879168328830382, 1977374033974150939, 2944078676154940804, 3659926193048069267, 4368137639120453308,
   4836135668995329356, 5532061633213252278, 6448918945643986474, 6902733635092675308, 7801388544844847127]

/-- The SHA-512 initial hash value (FIPS 180-4 section 5.3.5, the first 64
bits of the fractional parts of the square roots of the first 8 primes),
written in decimal. -/
def H512 : Array Nat :=
  #[7640891576956012808, 13503953896175478587, 4354685564936845355, 11912009170470909681,
    5840696475078001361, 11170449401992604703, 2270897969802886507, 6620516959819538809]

/-- Big-endian byte decomposition of `v` into `n` bytes, most significant first. -/
def beBytes : Nat → Nat → List Nat
  | 0, _ => []
  | n + 1, v => beBytes n (v / 256) ++ [v % 256]

/-- Big-endian word from a byte list. -/
def beWord (bs : List Nat) : Nat := bs.foldl (fun a b => a * 256 + b) 0

/-- SHA-512 padding: append `0x80`, zeros, then the 16-byte bit length,
so the total length is a multiple of 128 bytes. -/
def padMessage (msg : List Nat) : List Nat :=
  let L := msg.length
  let zeros := (128 - (L + 17) % 128) % 128
  msg ++ [0x80] ++ List.replicate zeros 0 ++ beBytes 16 (8 * L)

/-- Split a 128-byte block into its 16 big-endian 64-bit words. -/
def blockWords (blk : List Nat) : Array Nat :=
  (List.range 16).foldl (fun a i => a.push (beWord ((blk.drop (8 * i)).take 8))) #[]

/-- Extend 16 message words to the 80-word SHA-512 schedule. -/
def extendWords (ws : Array Nat) : Array Nat :=
  (List.range 64).foldl
    (fun a i =>
      let t := i + 16
      a.push (w64 (ssig1 (a.getD (t - 2) 0) + a.getD (t - 7) 0 +
                   ssig0 (a.getD (t - 15) 0) + a.getD (t - 16) 0)))
    ws

/-- The eight 64-bit working variables of the SHA-512 compression function. -/
structure Sha512State where
  a : Nat
  b : Nat
  c : Nat
  d : Nat
  e : Nat
  f : Nat
  g : Nat
  h : Nat

/-- One SHA-512 round with constant `k` and schedule word `w`. -/
def sha512Round (st : Sha512State) (k w : Nat) : Sha512State :=
  let t1 := w64 (st.h + bsig1 st.e + ch st.e st.f st.g + k + w)
  let t2 := w64 (bsig0 st.a + maj st.a st.b st.c)
  ⟨w64 (t1 + t2), st.a, st.b, st.c, w64 (st.d + t1), st.e, st.f, st.g⟩

/-- SHA-512 compression of one 128-byte block into the chaining value. -/
def compressBlock (hs : Array Nat) (blk : List Nat) : Array Nat :=
  let ws := extendWords (blockWords blk)
  let st0 : Sha512State :=
    ⟨hs.getD 0 0, hs.getD 1 0, hs.getD 2 0, hs.getD 3 0,
     hs.getD 4 0, hs.getD 5 0, hs.getD 6 0, hs.getD 7 0⟩
  let fin := (List.range 80).foldl
    (fun st i => sha512Round st (K512.getD i 0) (ws.getD i 0)) st0
  #[w64 (hs.getD 0 0 + fin.a), w64 (hs.getD 1 0 + fin.b),
    w64 (hs.getD 2 0 + fin.c), w64 (hs.getD 3 0 + fin.d),
    w64 (hs.getD 4 0 + fin.e), w64 (hs.getD 5 0 + fin.f),
    w64 (hs.getD 6 0 + fin.g), w64 (hs.getD 7 0 + fin.h)]

/-- SHA-512 of a byte list, as a 64-byte digest. -/
def sha512Bytes (msg : List Nat) : List Nat :=
  let padded := padMessage msg
  let final := (List.range (padded.length / 128)).foldl
    (fun hs i => compressBlock hs ((padded.drop (128 * i)).take 128)) H512
  (final.toList.map (beBytes 8)).flatten

/-! ## HMAC (RFC 2104), the `hmac` collaborator, and hex (the `hex` crate) -/

/-- HMAC key normalisation: hash keys longer than the 128-byte block,
then zero-pad to the block size. -/
def hmacKeyBlock (key : List Nat) : List Nat :=
  let k0 := if key.length > 128 then sha512Bytes key else key
  k0 ++ List.replicate (128 - k0.length) 0

/-- HMAC-SHA512 of `msg` under `key`. -/
def hmacSha512 (key msg : List Nat) : List Nat :=
  let k := hmacKeyBlock key
  let ipad := k.map (fun b => b ^^^ 0x36)
  let opad := k.map (fun b => b ^^^ 0x5c)
  sha512Bytes (opad ++ sha512Bytes (ipad ++ msg))

/-- Lowercase hexadecimal digit for a nibble. -/
def hexDigit (n : Nat) : Char :=
  if n < 10 then Char.ofNat (48 + n) else Char.ofNat (87 + n)

/-- Lowercase hexadecimal encoding of a byte list
(`hex::ToHex::write_hex`, which always emits lowercase). -/
def hexEncode (bs : List Nat) : String :=
  String.join (bs.map (fun b => String.mk [hexDigit (b / 16), hexDigit (b % 16)]))

/-! ## Client (`struct Client` and its methods) -/

/-- `struct Client`: the reqwest transport handle (opaque here, modelled as
`Unit`) and the optional credential pair. -/
structure Client where
  inner : Unit
  api_key : Option String
  api_secret : Option String
deriving DecidableEq, Repr

/-- `Client::new`: a fresh transport handle and no credentials, wrapped in
`Ok` (the source signature is `Result<Client>`, but its body is a single
`Ok(..)`, so the error branch is syntactically unreachable). -/
def Client.new : Except BError Client :=
  Except.ok { inner := (), api_key := none, api_secret := none }

/-- `Client::login`: stores both credentials; performs no network activity. -/
def Client.login (c : Client) (api_key api_secret : String) : Client :=
  { c with api_key := some api_key, api_secret := some api_secret }

/-- `Client::append_login`: appends the `apikey` and `nonce` query pairs to
the URL (`nonce` is `Utc::now().timestamp()`, the current Unix timestamp in
seconds, passed here explicitly as `now`). The outer `none` models the panic
of `self.api_key.as_ref().unwrap()` when the client is not logged in. -/
def Client.append_login (c : Client) (now : Int) (url : Url) : Option Url :=
  match c.api_key with
  | none => none
  | some api_key =>
      some ((url.append_pair "apikey" api_key).append_pair "nonce" (toString now))

/-- Model of `Hmac::<Sha512>::new` from the `hmac` crate: HMAC admits keys
of any length, so the `InvalidKeyLength` branch never fires; the `Except`
shape mirrors the fallible signature the source maps over with `map_err`. -/
def hmacNew (key : List Nat) : Except Unit (List Nat) :=
  Except.ok key

/-- `Client::hash_uri`: HMAC-SHA512 of the full URL string under the API
secret's bytes, hex-encoded lowercase. The outer `none` models the panic of
`self.api_secret.as_ref().expect("the client was not logged in")`; the
inner `match` is the `?` on the `map_err`-wrapped HMAC construction. -/
def Client.hash_uri (c : Client) (url : Url) : Option (Except BError String) :=
  match c.api_secret with
  | none => none
  | some api_secret =>
      some
        (match (hmacNew (utf8Bytes api_secret)).mapError
            (fun _ => BError.Msg "invalid key length") with
         | Except.error e => Except.error e
         | Except.ok key =>
             Except.ok (hexEncode (hmacSha512 key (utf8Bytes url.asStr))))

/-- `Client::get_headers`: a header list holding the single `apisign` header
whose value is `hash_uri`; the `?` on `hash` propagates a typed error, and a
panic inside `hash_uri` propagates as `none`. -/
def Client.get_headers (c : Client) (url : Url) :
    Option (Except BError (List (String × String))) :=
  match c.hash_uri url with
  | none => none
  | some (Except.error e) => some (Except.error e)
  | some (Except.ok hash) => some (Except.ok [("apisign", hash)])

/-! ## Spec-side definitions and observations -/

/-- The signature prescribed by the spec's words: lowercase hexadecimal of
HMAC-SHA512 computed over the UTF-8 bytes of the URL's full string form,
with the API secret's bytes as the HMAC key. -/
def specSignature (secret : String) (u : Url) : String :=
  hexEncode (hmacSha512 (utf8Bytes secret) (utf8Bytes u.asStr))

/-- The value of the last `nonce` query parameter of a URL, if any. -/
def Url.nonceStr (u : Url) : Option String :=
  (u.query.reverse.find? (fun p => p.1 == "nonce")).map (fun p => p.2)

/-- Clients reachable by `new` followed by any sequence of `login` calls. -/
inductive Reachable : Client → Prop where
  | new : ∀ c, Client.new = Except.ok c → Reachable c
  | login : ∀ c k s, Reachable c → Reachable (c.login k s)

/-- Shared helper: the exact value `append_login` produces on a logged-in
client. -/
theorem Client.append_login_some (c : Client) (k : String) (t : Int) (u : Url)
    (hk : c.api_key = some k) :
    c.append_login t u =
      some { u with query := u.query ++ [("apikey", k), ("nonce", toString t)] } := by
  simp [Client.append_login, hk, Url.append_pair]

/-! ## Known-answer checks for the cryptographic collaborator -/

set_option maxRecDepth 100000 in
/-- FIPS 180-4 known-answer vector: SHA-512 of `"abc"`. -/
theorem sha512_kat_abc :
    hexEncode (sha512Bytes (utf8Bytes "abc")) =
      "ddaf35a193617abacc417349ae20413112e6fa4e89a97ea20a9eeee64b55d39a2192992a274fc1a836ba3c23a3feebbd454d4423643ce80e2a9ac94fa54ca49f" := by
  rfl

set_option maxRecDepth 400000 in
/-- The spec's end-to-end scenario: signature for the `getbalances` URL
augmented with `apikey=KEY123&nonce=1700000000`, under secret `SECRET456`
(value computed independently with a reference HMAC-SHA512). -/
theorem specSignature_kat :
    specSignature "SECRET456"
      { scheme := "https", host := "bittrex.com", path := "/api/v1.1/account/getbalances",
        query := [("apikey", "KEY123"), ("nonce", "1700000000")] } =
      "1c355a29ff9a2d788db374c665fc759ebacaf95eb79ffad0c90e8cf3a968943829f54892d61c7a7c35661c61a72f2f306810aba027af27f73bc8ee3efe671ff5" := by
  rfl

/-- The spec's end-to-end scenario: the augmented URL serializes exactly as
`.../getbalances?apikey=KEY123&nonce=1700000000`. -/
theorem append_login_end_to_end :
    (({ inner := (), api_key := some "KEY123", api_secret := some "SECRET456" } : Client).append_login
        1700000000
        { scheme := "https", host := "bittrex.com", path := "/api/v1.1/account/getbalances",
          query := [] }).map Url.asStr =
      some "https://bittrex.com/api/v1.1/account/getbalances?apikey=KEY123&nonce=1700000000" := by
  rfl

/-! ## Claims -/

/-- C1: for every envelope with `success == true` and a present `result r`,
`ApiResult::into_result` returns exactly `r` as the success value. -/
theorem C1_envelope_success {R : Type} (a : ApiResult R) (r : R)
    (hs : a.success = true) (hr : a.result = some r) :
    a.into_result = Except.ok r := by
  simp [ApiResult.into_result, hs, hr]

/-- Witness for C1 at a concrete envelope. -/
theorem C1_envelope_success_witness :
    ({ success := true, message := "", result := some 7 } : ApiResult Nat).success = true ∧
    ({ success := true, message := "", result := some 7 } : ApiResult Nat).result = some 7 ∧
    ({ success := true, message := "", result := some 7 } : ApiResult Nat).into_result =
      Except.ok 7 :=
  ⟨rfl, rfl, C1_envelope_success _ 7 rfl rfl⟩

/-- C2: for every envelope with `success == false` and message `M`,
`into_result` returns a `Result`-kind error carrying `M` exactly, regardless
of whether `result` is present. -/
theorem C2_envelope_failure {R : Type} (a : ApiResult R)
    (hs : a.success = false) :
    a.into_result = Except.error (BError.Result a.message) := by
  simp [ApiResult.into_result, hs]

/-- Witness for C2 at a concrete envelope (with `result` present, showing
the message is carried regardless). -/
theorem C2_envelope_failure_witness :
    ({ success := false, message := "M", result := some 3 } : ApiResult Nat).success = false ∧
    ({ success := false, message := "M", result := some 3 } : ApiResult Nat).into_result =
      Except.error (BError.Result "M") :=
  ⟨rfl, C2_envelope_failure _ rfl⟩

/-- C3: for every envelope with `success == true` and `result` absent,
`into_result` returns an `Api`-kind error with the fixed diagnostic string,
never a success value. -/
theorem C3_envelope_missing_result {R : Type} (a : ApiResult R)
    (hs : a.success = true) (hr : a.result = none) :
    a.into_result = Except.error (BError.Api "invalid result in success response") := by
  simp [ApiResult.into_result, hs, hr]

/-- Witness for C3 at a concrete envelope. -/
theorem C3_envelope_missing_result_witness :
    ({ success := true, message := "", result := none } : ApiResult Nat).success = true ∧
    ({ success := true, message := "", result := none } : ApiResult Nat).result = none ∧
    ({ success := true, message := "", result := none } : ApiResult Nat).into_result =
      Except.error (BError.Api "invalid result in success response") :=
  ⟨rfl, rfl, C3_envelope_missing_result _ rfl rfl⟩

/-- C4: for every logged-in client (secret `s` present) and every URL `u`,
`get_headers` produces exactly the `apisign` header whose value is the
lowercase hex of HMAC-SHA512 over the UTF-8 bytes of `u`'s full string
form, keyed by the secret's bytes — `specSignature s u`, a function of
`(u, s)` only. -/
theorem C4_apisign_is_hmac_of_url (c : Client) (s : String) (u : Url)
    (h : c.api_secret = some s) :
    c.get_headers u = some (Except.ok [("apisign", specSignature s u)]) := by
  simp [Client.get_headers, Client.hash_uri, h, hmacNew, Except.mapError, specSignature]

/-- Witness for C4 at the spec's end-to-end scenario client and URL. -/
theorem C4_apisign_is_hmac_of_url_witness :
    ({ inner := (), api_key := some "KEY123", api_secret := some "SECRET456" } : Client).api_secret =
      some "SECRET456" ∧
    ({ inner := (), api_key := some "KEY123", api_secret := some "SECRET456" } : Client).get_headers
        { scheme := "https", host := "bittrex.com", path := "/api/v1.1/account/getbalances",
          query := [("apikey", "KEY123"), ("nonce", "1700000000")] } =
      some (Except.ok [("apisign", specSignature "SECRET456"
        { scheme := "https", host := "bittrex.com", path := "/api/v1.1/account/getbalances",
          query := [("apikey", "KEY123"), ("nonce", "1700000000")] })]) :=
  ⟨rfl, C4_apisign_is_hmac_of_url _ "SECRET456" _ rfl⟩

/-- C5: for every logged-in client and base URL, `append_login` appends
exactly two query pairs, in order: `apikey` with the stored key verbatim,
then `nonce` with the decimal form of the timestamp at signing time. -/
theorem C5_append_login_two_pairs (c : Client) (k : String) (t : Int) (u : Url)
    (hk : c.api_key = some k) :
    c.append_login t u =
      some { u with query := u.query ++ [("apikey", k), ("nonce", toString t)] } :=
  Client.append_login_some c k t u hk

/-- Witness for C5 at a concrete client, timestamp and URL. -/
theorem C5_append_login_two_pairs_witness :
    ({ inner := (), api_key := some "K", api_secret := some "S" } : Client).api_key = some "K" ∧
    ({ inner := (), api_key := some "K", api_secret := some "S" } : Client).append_login 5
        { scheme := "https", host := "h", path := "/p", query := [("a", "b")] } =
      some { scheme := "https", host := "h", path := "/p",
             query := [("a", "b"), ("apikey", "K"), ("nonce", "5")] } :=
  ⟨rfl, C5_append_login_two_pairs _ "K" 5 _ rfl⟩

/-- C6: two URLs signed in sequence by the same client carry nonces that
are the decimal forms of the two signing timestamps; when the time
collaborator is non-decreasing (`t1 ≤ t2`), the second nonce is greater
than or equal to the first. -/
theorem C6_nonce_monotone (c : Client) (k : String) (t1 t2 : Int) (u u1 u2 : Url)
    (hk : c.api_key = some k) (ht : t1 ≤ t2)
    (h1 : c.append_login t1 u = some u1) (h2 : c.append_login t2 u = some u2) :
    ∃ n1 n2 : Int, u1.nonceStr = some (toString n1) ∧
      u2.nonceStr = some (toString n2) ∧ n1 ≤ n2 := by
  rw [Client.append_login_some c k t1 u hk] at h1
  rw [Client.append_login_some c k t2 u hk] at h2
  obtain rfl := Option.some.inj h1
  obtain rfl := Option.some.inj h2
  refine ⟨t1, t2, ?_, ?_, ht⟩ <;>
    simp [Url.nonceStr, List.find?]

/-- Witness for C6 at concrete timestamps `1 ≤ 2`. -/
theorem C6_nonce_monotone_witness :
    ({ inner := (), api_key := some "K", api_secret := some "S" } : Client).api_key = some "K" ∧
    (1 : Int) ≤ 2 ∧
    ({ inner := (), api_key := some "K", api_secret := some "S" } : Client).append_login 1
        { scheme := "https", host := "h", path := "/p", query := [] } =
      some { scheme := "https", host := "h", path := "/p",
             query := [("apikey", "K"), ("nonce", "1")] } ∧
    ({ inner := (), api_key := some "K", api_secret := some "S" } : Client).append_login 2
        { scheme := "https", host := "h", path := "/p", query := [] } =
      some { scheme := "https", host := "h", path := "/p",
             query := [("apikey", "K"), ("nonce", "2")] } ∧
    (∃ n1 n2 : Int,
      ({ scheme := "https", host := "h", path := "/p",
         query := [("apikey", "K"), ("nonce", "1")] } : Url).nonceStr = some (toString n1) ∧
      ({ scheme := "https", host := "h", path := "/p",
         query := [("apikey", "K"), ("nonce", "2")] } : Url).nonceStr = some (toString n2) ∧
      n1 ≤ n2) :=
  ⟨rfl, by decide, rfl, rfl,
    C6_nonce_monotone { inner := (), api_key := some "K", api_secret := some "S" } "K" 1 2
      { scheme := "https", host := "h", path := "/p", query := [] }
      { scheme := "https", host := "h", path := "/p", query := [("apikey", "K"), ("nonce", "1")] }
      { scheme := "https", host := "h", path := "/p", query := [("apikey", "K"), ("nonce", "2")] }
      rfl (by decide) rfl rfl⟩

/-- C7: on a client with no credentials, both signing steps panic
(modelled as `none`) instead of returning a typed error or proceeding. -/
theorem C7_not_logged_in_panics (c : Client) (t : Int) (u : Url)
    (hk : c.api_key = none) (hs : c.api_secret = none) :
    c.append_login t u = none ∧ c.hash_uri u = none := by
  constructor
  · simp [Client.append_login, hk]
  · simp [Client.hash_uri, hs]

/-- Witness for C7 at the freshly constructed client. -/
theorem C7_not_logged_in_panics_witness :
    ({ inner := (), api_key := none, api_secret := none } : Client).api_key = none ∧
    ({ inner := (), api_key := none, api_secret := none } : Client).api_secret = none ∧
    (({ inner := (), api_key := none, api_secret := none } : Client).append_login 0
        { scheme := "https", host := "h", path := "/p", query := [] } = none ∧
     ({ inner := (), api_key := none, api_secret := none } : Client).hash_uri
        { scheme := "https", host := "h", path := "/p", query := [] } = none) :=
  ⟨rfl, rfl, C7_not_logged_in_panics _ 0 _ rfl rfl⟩

/-- C8: `Client::new` always returns a success value (the error branch of
its `Result` is unreachable), and the constructed client has no
credentials. -/
theorem C8_new_always_ok :
    ∃ c : Client, Client.new = Except.ok c ∧ c.api_key = none ∧ c.api_secret = none :=
  ⟨{ inner := (), api_key := none, api_secret := none }, rfl, rfl, rfl⟩

/-- C9: every client reachable by `new` and any sequence of `login` calls
has `api_key` present exactly when `api_secret` is present, so the panic
checks of `append_login` and `hash_uri` agree on the login state. -/
theorem C9_credentials_paired (c : Client) (h : Reachable c) :
    c.api_key.isSome = c.api_secret.isSome := by
  induction h with
  | new c hc =>
      simp only [Client.new, Except.ok.injEq] at hc
      subst hc
      rfl
  | login c k s _ _ => rfl

/-- Witness for C9 at a client reached by `new` then one `login`. -/
theorem C9_credentials_paired_witness :
    Reachable (Client.login { inner := (), api_key := none, api_secret := none } "k" "s") ∧
    (Client.login { inner := (), api_key := none, api_secret := none } "k" "s").api_key.isSome =
      (Client.login { inner := (), api_key := none, api_secret := none } "k" "s").api_secret.isSome :=
  ⟨Reachable.login _ "k" "s" (Reachable.new _ rfl),
   C9_credentials_paired _ (Reachable.login _ "k" "s" (Reachable.new _ rfl))⟩

/-- C10: on a logged-in client, `append_login` changes only the query of
the URL, by appending the two pairs at the end: scheme, host, path and the
pre-existing query pairs (in their original order, as a prefix) are
untouched; in the source the receiver is `&self`, so the client itself
cannot be mutated. -/
theorem C10_append_login_frame (c : Client) (k : String) (t : Int) (u u' : Url)
    (hk : c.api_key = some k) (h : c.append_login t u = some u') :
    u'.scheme = u.scheme ∧ u'.host = u.host ∧ u'.path = u.path ∧
      u'.query = u.query ++ [("apikey", k), ("nonce", toString t)] := by
  rw [Client.append_login_some c k t u hk] at h
  obtain rfl := Option.some.inj h
  exact ⟨rfl, rfl, rfl, rfl⟩

/-- Witness for C10 at a concrete client and URL with a pre-existing query
pair. -/
theorem C10_append_login_frame_witness :
    ({ inner := (), api_key := some "K", api_secret := some "S" } : Client).api_key = some "K" ∧
    ({ inner := (), api_key := some "K", api_secret := some "S" } : Client).append_login 5
        { scheme := "https", host := "h", path := "/p", query := [("a", "b")] } =
      some { scheme := "https", host := "h", path := "/p",
             query := [("a", "b"), ("apikey", "K"), ("nonce", "5")] } ∧
    (({ scheme := "https", host := "h", path := "/p",
        query := [("a", "b"), ("apikey", "K"), ("nonce", "5")] } : Url).scheme = "https" ∧
     ({ scheme := "https", host := "h", path := "/p",
        query := [("a", "b"), ("apikey", "K"), ("nonce", "5")] } : Url).host = "h" ∧
     ({ scheme := "https", host := "h", path := "/p",
        query := [("a", "b"), ("apikey", "K"), ("nonce", "5")] } : Url).path = "/p" ∧
     ({ scheme := "https", host := "h", path := "/p",
        query := [("a", "b"), ("apikey", "K"), ("nonce", "5")] } : Url).query =
       [("a", "b")] ++ [("apikey", "K"), ("nonce", toString (5 : Int))]) :=
  ⟨rfl, rfl,
    C10_append_login_frame { inner := (), api_key := some "K", api_secret := some "S" } "K" 5
      { scheme := "https", host := "h", path := "/p", query := [("a", "b")] }
      { scheme := "https", host := "h", path := "/p",
        query := [("a", "b"), ("apikey", "K"), ("nonce", "5")] }
      rfl rfl⟩

end Bittrex

